import Mathlib

/-!
Verification of the fallback orchestration in `psx/core.py` (class `PSXTicker`).

The external source clients (`psx_reader`, `fetch_intraday_data`,
`scrape_historical_data`, `TradingViewClient`) are collaborators outside the
repository core; each call models their behaviour as an explicit outcome value
fed into the orchestrator, exactly as the orchestrator observes it (a returned
table, a raised `PSXRequestError`, or some other raised exception).  Dates are
modelled as integer day counts, so `timedelta(days = n)` is subtraction of `n`.
-/

namespace PyPSX

/-- A Python runtime value as it flows through the orchestrator: a string, an
integer, the result of `pd.to_datetime` on a string, or `None`. -/
inductive Val
  | vstr (s : String)
  | vint (n : Int)
  | vdt (s : String)
  | vnone
deriving DecidableEq, Repr

/-- Model of `pd.to_datetime` applied to a cell: a string becomes a datetime;
other values are left as they are. -/
def pdToDatetime : Val → Val
  | .vstr s => .vdt s
  | v => v

/-- A pandas DataFrame as the orchestrator manipulates it: a list of column
labels, the index values, and the rows (one list of cells per index entry). -/
structure DataFrame where
  columns : List String
  index : List Val
  rows : List (List Val)
deriving DecidableEq, Repr

/-- Pandas `df.empty`: true when either axis has length zero. -/
def DataFrame.empty (df : DataFrame) : Bool :=
  df.rows.isEmpty || df.columns.isEmpty

/-- Python `col.lower()`: lower-case every character of the label. -/
def pyLower (s : String) : String :=
  ⟨s.data.map Char.toLower⟩

/-- Assignment `df.columns = [col.lower() for col in df.columns]` of core.py
line 88: lower-case every column label, leaving index and cell values
untouched. -/
def lowerCols (df : DataFrame) : DataFrame :=
  ⟨df.columns.map pyLower, df.index, df.rows⟩

/-- A raised Python exception that the period-parsing step can produce. -/
inductive PyErr
  | valueError (msg : String)
deriving DecidableEq, Repr

/-- Python `s[:-2]`: all but the last two characters (empty when `len(s) <= 2`). -/
def sliceDropLast2 (s : String) : String :=
  ⟨s.data.take (s.data.length - 2)⟩

/-- Python `s[-2:]`: the last two characters (the whole string when
`len(s) < 2`). -/
def sliceLast2 (s : String) : String :=
  ⟨s.data.drop (s.data.length - 2)⟩

/-- The numeric value of a run of decimal digits. -/
def digitsVal (cs : List Char) : Nat :=
  cs.foldl (fun n c => n * 10 + (c.toNat - 48)) 0

/-- A non-empty all-digit character run. -/
def allDigits (cs : List Char) : Bool :=
  !cs.isEmpty && cs.all Char.isDigit

/-- Python `int(s)` in base 10: optional surrounding whitespace, an optional
sign, then at least one decimal digit; anything else raises `ValueError`. -/
def pyInt (s : String) : Option Int :=
  let t := (((s.data.dropWhile Char.isWhitespace).reverse.dropWhile
    Char.isWhitespace).reverse)
  match t with
  | '-' :: ds => if allDigits ds then some (-(digitsVal ds : Int)) else none
  | '+' :: ds => if allDigits ds then some ((digitsVal ds : Int)) else none
  | ds => if allDigits ds then some ((digitsVal ds : Int)) else none

/-- core.py lines 67-77: when `start_date` is `None`, parse the period string.
`value = int(period[:-2])` runs first (its `ValueError` escapes as such), then
`unit = period[-2:]` selects 30 or 365 days per unit, and any other unit raises
the format `ValueError`.  Dates are integer day counts. -/
def resolveStartDate (startDate : Option Int) (endDate : Int) (period : String) :
    Except PyErr Int :=
  match startDate with
  | some s => .ok s
  | none =>
    match pyInt (sliceDropLast2 period) with
    | none => .error (.valueError "invalid literal for int() with base 10")
    | some value =>
      let unit := sliceLast2 period
      if unit = "mo" then .ok (endDate - value * 30)
      else if unit = "y" then .ok (endDate - value * 365)
      else .error (.valueError "Invalid period format. Use Xmo or Xy (e.g. 1mo, 1y)")

/-- What the primary historical source call `scrape_historical_data(symbol,
start_date, end_date)` did on this call, as observed at the call site: it
returned a DataFrame, raised a `PSXRequestError` with some message, or raised
some other exception with some message. -/
inductive ReaderOutcome
  | ok (df : DataFrame)
  | psxError (msg : String)
  | otherError (msg : String)
deriving DecidableEq, Repr

/-- One element of the `data` sequence in the TradingView payload: either a
Python list of cells or some non-list value. -/
inductive TVEntry
  | ofList (elems : List Val)
  | scalar (v : Val)
deriving DecidableEq, Repr

/-- The payload returned by `tv_client.get_historical_data`: either a dict
containing a `data` key (with its entry sequence), or anything else (a
non-dict, or a dict without `data`). -/
inductive TVPayload
  | withData (entries : List TVEntry)
  | noData
deriving DecidableEq, Repr

/-- What the TradingView client call did on this call: returned a payload or
raised an exception with some message. -/
inductive TVOutcome
  | ok (payload : TVPayload)
  | raised (msg : String)
deriving DecidableEq, Repr

/-- One extracted TradingView row, keyed `date, open, high, low, close,
volume` (core.py lines 124-131). -/
structure TVRow where
  date : Val
  open_ : Val
  high : Val
  low : Val
  close : Val
  volume : Val
deriving DecidableEq, Repr

/-- The extraction loop of core.py lines 120-131.  Each entry that is a list
of length at least 6 is unpacked into exactly six names; a list of exactly 6
cells yields a row (its date cell through `pd.to_datetime`), a longer list
makes the unpacking raise `ValueError` (aborting the loop, so earlier rows are
lost), and every other entry is skipped. -/
def extractTVRows : List TVEntry → Except String (List TVRow)
  | [] => .ok []
  | .scalar _ :: rest => extractTVRows rest
  | .ofList l :: rest =>
    match l with
    | [d, o, hi, lo, c, v] =>
      (extractTVRows rest).map (fun rs => ⟨pdToDatetime d, o, hi, lo, c, v⟩ :: rs)
    | _ =>
      if l.length ≥ 6 then .error "too many values to unpack (expected 6)"
      else extractTVRows rest

/-- Call `pd.DataFrame(data).set_index(the date key)` on a non-empty extracted
row list: columns are the five value fields, the index is the date column. -/
def tvDataFrame (rows : List TVRow) : DataFrame :=
  ⟨["open", "high", "low", "close", "volume"],
   rows.map (fun r => r.date),
   rows.map (fun r => [r.open_, r.high, r.low, r.close, r.volume])⟩

/-- The inputs of one `get_historical_data` call after date resolution: the
two source toggles and what each external source would do if called. -/
structure HistCall where
  usePsxReader : Bool
  useTradingView : Bool
  readerOutcome : ReaderOutcome
  tvOutcome : TVOutcome
deriving DecidableEq, Repr

/-- How a `get_historical_data` call ends: a returned DataFrame, the composite
`PSXRequestError` raised at the end (core.py line 145), or an exception that
escapes uncaught. -/
inductive HistResult
  | ok (df : DataFrame)
  | psxRequestError (msg : String)
  | uncaught (msg : String)
deriving DecidableEq, Repr

/-- The observable trace of one call: its result, whether each source was
actually invoked, and the final state of the `errors` accumulator. -/
structure HistTrace where
  result : HistResult
  readerAttempted : Bool
  tvAttempted : Bool
  errors : List String
deriving DecidableEq, Repr

/-- The numbered lines of the composite error message, one per accumulated
failure, 1-indexed (core.py lines 142-143). -/
def numberedLines (errors : List String) : List String :=
  errors.enum.map (fun p => toString (p.1 + 1) ++ ". " ++ p.2 ++ "\n")

/-- The composite error message of core.py lines 141-143. -/
def compositeMsg (errors : List String) : String :=
  "Failed to fetch historical data using all available methods:\n"
    ++ String.join (numberedLines errors)

/-- The column labels the statistics block reads, in evaluation order
(core.py lines 98-101). -/
def statsCols : List String := ["close", "high", "low", "volume"]

/-- The first statistics column absent from the DataFrame, if any: `df[col]`
on that column is the first access to raise `KeyError`. -/
def firstMissingStat (df : DataFrame) : Option String :=
  statsCols.find? (fun c => !(df.columns.contains c))

/-- The TradingView branch and the final composite raise (core.py lines
108-145), entered with the accumulated `errors` and the reader-attempted flag.
A raised client exception or an extraction `ValueError` is caught by the
branch-wide `except Exception` and appended; a payload without a usable
`data` key, or one whose extraction yields no rows, falls through silently;
a non-empty extraction returns its date-indexed DataFrame. -/
def tvPhase (c : HistCall) (errors : List String) (rAtt : Bool) : HistTrace :=
  if c.useTradingView then
    match c.tvOutcome with
    | .raised m =>
      let errors2 := errors ++ ["TradingView error: " ++ m]
      ⟨.psxRequestError (compositeMsg errors2), rAtt, true, errors2⟩
    | .ok .noData => ⟨.psxRequestError (compositeMsg errors), rAtt, true, errors⟩
    | .ok (.withData entries) =>
      match extractTVRows entries with
      | .error m =>
        let errors2 := errors ++ ["TradingView error: " ++ m]
        ⟨.psxRequestError (compositeMsg errors2), rAtt, true, errors2⟩
      | .ok [] => ⟨.psxRequestError (compositeMsg errors), rAtt, true, errors⟩
      | .ok (r :: rs) => ⟨.ok (tvDataFrame (r :: rs)), rAtt, true, errors⟩
  else ⟨.psxRequestError (compositeMsg errors), rAtt, false, errors⟩

/-- core.py lines 80-145: the fallback orchestration of `get_historical_data`
after date resolution.  The reader branch lower-cases the column labels, runs
the statistics block when the table is non-empty (a missing statistics column
raises `KeyError`, which no handler catches), and then returns the table
unconditionally — empty or not; only a raised `PSXRequestError` is caught and
recorded, any other reader exception escapes.  Control reaches the
TradingView branch only when the reader branch is disabled or raised
`PSXRequestError`. -/
def get_historical_data (c : HistCall) : HistTrace :=
  if c.usePsxReader then
    match c.readerOutcome with
    | .ok df =>
      let df2 := lowerCols df
      if df2.empty then ⟨.ok df2, true, false, []⟩
      else
        match firstMissingStat df2 with
        | some col => ⟨.uncaught ("KeyError: " ++ col), true, false, []⟩
        | none => ⟨.ok df2, true, false, []⟩
    | .psxError m => tvPhase c ["PSXDataReader error: " ++ m] true
    | .otherError m => ⟨.uncaught m, true, false, []⟩
  else tvPhase c [] false

/-- The whole `get_historical_data` entry point with `start_date` resolution
(core.py lines 64-77 before lines 80-145): a period-format `ValueError` is
raised before any source is contacted. -/
def get_historical_data_call (startDate : Option Int) (endDate : Int)
    (period : String) (c : HistCall) : Except PyErr HistTrace :=
  match resolveStartDate startDate endDate period with
  | .error e => .error e
  | .ok _ => .ok (get_historical_data c)

/-- What `psx_reader.get_intraday_data(symbol)` did on this call: returned a
DataFrame or raised some exception. -/
inductive IntradayPrimary
  | ok (df : DataFrame)
  | raised (msg : String)
deriving DecidableEq, Repr

/-- The mapping returned by the fallback `fetch_intraday_data(symbol)`: the
orchestrator reads only the price and volume keys via `data.get` with a
`None` default; any timestamp the mapping may carry is ignored. -/
structure IntradayDict where
  price : Option Val
  volume : Option Val
  timestamp : Option Val
deriving DecidableEq, Repr

/-- What `fetch_intraday_data(symbol)` did on this call: returned its mapping
or raised some exception. -/
inductive IntradaySecondary
  | ok (d : IntradayDict)
  | raised (msg : String)
deriving DecidableEq, Repr

/-- How a `get_intraday_data` call ends. -/
inductive IntradayResult
  | ok (df : DataFrame)
  | psxRequestError (msg : String)
deriving DecidableEq, Repr

/-- The single-row fallback snapshot of core.py lines 35-39: one row holding
the price and volume read from the mapping (absent keys become `None`),
indexed by the call-time timestamp `datetime.now()`. -/
def snapshotFrame (now : Val) (d : IntradayDict) : DataFrame :=
  ⟨["price", "volume"], [now], [[d.price.getD Val.vnone, d.volume.getD Val.vnone]]⟩

/-- core.py lines 22-41, `get_intraday_data`: return the primary result
verbatim; on any primary exception fall back to the snapshot built from the
secondary mapping; if the secondary also raises, raise `PSXRequestError`
wrapping the secondary message. -/
def get_intraday_data (p : IntradayPrimary) (s : IntradaySecondary) (now : Val) :
    IntradayResult :=
  match p with
  | .ok df => .ok df
  | .raised _ =>
    match s with
    | .ok d => .ok (snapshotFrame now d)
    | .raised m2 => .psxRequestError ("Failed to fetch intraday data: " ++ m2)

/-- A `data` entry the extraction loop silently skips: a non-list, or a list
of fewer than 6 cells. -/
def malformedEntry : TVEntry → Bool
  | .scalar _ => true
  | .ofList l => decide (l.length < 6)

/-- Spec-side description of the valid rows: the entries that are lists of
exactly 6 cells, in order, interpreted positionally as
`(date, open, high, low, close, volume)` with the date through
`pd.to_datetime`. -/
def validRow : TVEntry → Option TVRow
  | .ofList [d, o, hi, lo, c, v] => some ⟨pdToDatetime d, o, hi, lo, c, v⟩
  | _ => none

/-- Spec-side: all valid rows of an entry sequence, malformed entries
dropped. -/
def validRows (entries : List TVEntry) : List TVRow :=
  entries.filterMap validRow

/-- The reader branch ends the call by itself (returning a table or letting an
exception escape): it is enabled and its outcome is anything other than a
raised `PSXRequestError`. -/
def readerEndsCall (c : HistCall) : Bool :=
  c.usePsxReader &&
    (match c.readerOutcome with
     | .psxError _ => false
     | _ => true)

/-- The TradingView branch returns a table: it is enabled, its client returns
a payload carrying a `data` key, and extraction yields at least one row. -/
def tvReturnsTable (c : HistCall) : Bool :=
  c.useTradingView &&
    (match c.tvOutcome with
     | .ok (.withData entries) =>
       match extractTVRows entries with
       | .ok (_ :: _) => true
       | _ => false
     | _ => false)

/-- An entry that cannot make the unpacking raise: any non-list, or a list of
at most 6 cells. -/
def entryLenOk : TVEntry → Bool
  | .ofList l => decide (l.length ≤ 6)
  | .scalar _ => true

theorem lowerCols_empty (df : DataFrame) : (lowerCols df).empty = df.empty := by
  cases h : df.columns <;> simp [lowerCols, DataFrame.empty, h]

theorem validRow_eq_none_of_length_ne (l : List Val) (h : l.length ≠ 6) :
    validRow (.ofList l) = none := by
  rcases l with _ | ⟨a, _ | ⟨b, _ | ⟨c, _ | ⟨d, _ | ⟨e, _ | ⟨f, _ | ⟨g, t⟩⟩⟩⟩⟩⟩⟩ <;>
    first
    | rfl
    | exact absurd rfl h

theorem extractTVRows_eq_validRows :
    ∀ entries : List TVEntry, (∀ e ∈ entries, entryLenOk e = true) →
      extractTVRows entries = .ok (validRows entries)
  | [], _ => rfl
  | .scalar v :: rest, h => by
    have ihr := extractTVRows_eq_validRows rest
      (fun x hx => h x (List.mem_cons_of_mem _ hx))
    simp [extractTVRows, validRows, List.filterMap_cons, validRow, ihr]
  | .ofList l :: rest, h => by
    have ihr := extractTVRows_eq_validRows rest
      (fun x hx => h x (List.mem_cons_of_mem _ hx))
    have he : entryLenOk (.ofList l) = true := h _ (List.mem_cons_self _ _)
    rcases l with _ | ⟨a, _ | ⟨b, _ | ⟨c, _ | ⟨d, _ | ⟨x, _ | ⟨f, _ | ⟨g, t⟩⟩⟩⟩⟩⟩⟩
    · simp [extractTVRows, validRows, List.filterMap_cons, validRow, ihr]
    · simp [extractTVRows, validRows, List.filterMap_cons, validRow, ihr]
    · simp [extractTVRows, validRows, List.filterMap_cons, validRow, ihr]
    · simp [extractTVRows, validRows, List.filterMap_cons, validRow, ihr]
    · simp [extractTVRows, validRows, List.filterMap_cons, validRow, ihr]
    · simp [extractTVRows, validRows, List.filterMap_cons, validRow, ihr]
    · simp [extractTVRows, validRows, List.filterMap_cons, validRow, ihr,
        Except.map]
    · simp [entryLenOk] at he

theorem malformed_entryLenOk (e : TVEntry) (h : malformedEntry e = true) :
    entryLenOk e = true := by
  cases e with
  | scalar v => rfl
  | ofList l =>
    simp [malformedEntry] at h
    simp [entryLenOk]
    omega

theorem malformed_validRow_none (e : TVEntry) (h : malformedEntry e = true) :
    validRow e = none := by
  cases e with
  | scalar v => rfl
  | ofList l =>
    simp [malformedEntry] at h
    exact validRow_eq_none_of_length_ne l (by omega)

theorem validRows_all_malformed :
    ∀ entries : List TVEntry, (∀ e ∈ entries, malformedEntry e = true) →
      validRows entries = []
  | [], _ => rfl
  | e :: rest, h => by
    have h1 := malformed_validRow_none e (h e (List.mem_cons_self _ _))
    have h2 := validRows_all_malformed rest
      (fun x hx => h x (List.mem_cons_of_mem _ hx))
    simp [validRows, List.filterMap_cons, h1]
    simpa [validRows] using h2

theorem numberedLines_length (errors : List String) :
    (numberedLines errors).length = errors.length := by
  simp [numberedLines]

/-- Claim C1: the spec says a period `<int>mo` resolves to `end_date` minus
`30*int` days, `<int>y` to `end_date` minus `365*int` days, and any other unit
raises a format `ValueError` before any source is contacted.  The `mo` and
unsupported-unit parts hold, but `<int>y` never works: `period[:-2]` strips
the digits together with the `y` (so `int` of the empty string raises
`ValueError` for `1y`), and for multi-digit years the two-character unit slice
still holds a digit, hitting the format error.  The `unit == "y"` branch is
unreachable, although the docstring of `get_historical_data` lists `1y` as a
valid period. -/
theorem c1_period_parsing_code_bug :
    (∀ ctx : HistCall,
      get_historical_data_call none 20000 "1y" ctx =
        .error (.valueError "invalid literal for int() with base 10"))
    ∧ resolveStartDate none 20000 "1mo" = .ok (20000 - 1 * 30)
    ∧ resolveStartDate none 20000 "3mo" = .ok (20000 - 3 * 30)
    ∧ resolveStartDate none 20000 "12mo" = .ok (20000 - 12 * 30)
    ∧ resolveStartDate none 20000 "10y" =
        .error (.valueError "Invalid period format. Use Xmo or Xy (e.g. 1mo, 1y)")
    ∧ resolveStartDate none 20000 "1wk" =
        .error (.valueError "Invalid period format. Use Xmo or Xy (e.g. 1mo, 1y)") :=
  ⟨fun _ => rfl, rfl, rfl, rfl, rfl, rfl⟩

/-- Claim C2 counterexample: the reader source succeeds with an empty table
while TradingView is enabled and would supply a valid row, yet the call
returns the empty table and TradingView is never attempted — the empty result
is not treated as a failure. -/
theorem c2_counterexample :
    get_historical_data
      ⟨true, true, .ok ⟨[], [], []⟩,
       .ok (.withData
         [.ofList [.vstr "2024-01-01", .vint 10, .vint 12, .vint 9, .vint 11,
           .vint 100]])⟩ =
      ⟨.ok ⟨[], [], []⟩, true, false, []⟩ := rfl

/-- Claim C2 (amended): when the reader source succeeds with an empty table,
`get_historical_data` returns that empty table (columns lower-cased) at once;
it does not fall through to TradingView, which is never attempted. -/
theorem c2_empty_reader_returned (ctx : HistCall) (df : DataFrame)
    (hr : ctx.usePsxReader = true) (ho : ctx.readerOutcome = .ok df)
    (he : df.empty = true) :
    get_historical_data ctx = ⟨.ok (lowerCols df), true, false, []⟩ := by
  have h2 : (lowerCols df).empty = true := by rw [lowerCols_empty]; exact he
  simp [get_historical_data, hr, ho, h2]

theorem c2_empty_reader_returned_witness :
    get_historical_data ⟨true, true, .ok ⟨["Date"], [], []⟩, .raised "x"⟩ =
      ⟨.ok (lowerCols ⟨["Date"], [], []⟩), true, false, []⟩ :=
  c2_empty_reader_returned _ ⟨["Date"], [], []⟩ rfl rfl (by decide)

/-- Claim C3 counterexample: the reader source returns a non-empty table that
lacks a `close` column; instead of returning the table, the statistics block
raises `KeyError`, which escapes uncaught. -/
theorem c3_counterexample :
    get_historical_data
      ⟨true, true, .ok ⟨["Date", "Price"], [.vint 0], [[.vint 1, .vint 2]]⟩,
       .ok (.withData [])⟩ =
      ⟨.uncaught "KeyError: close", true, false, []⟩ := by decide

/-- Claim C3 (amended): when the reader source returns a non-empty table whose
lower-cased columns include `close`, `high`, `low` and `volume`,
`get_historical_data` returns that table with only its column labels
lower-cased (index and cell values unaltered) and TradingView is never
attempted. -/
theorem c3_reader_nonempty_returned (ctx : HistCall) (df : DataFrame)
    (hr : ctx.usePsxReader = true) (ho : ctx.readerOutcome = .ok df)
    (hne : (lowerCols df).empty = false)
    (hcols : ∀ s ∈ statsCols, (lowerCols df).columns.contains s = true) :
    get_historical_data ctx = ⟨.ok (lowerCols df), true, false, []⟩
      ∧ (lowerCols df).columns = df.columns.map pyLower
      ∧ (lowerCols df).index = df.index
      ∧ (lowerCols df).rows = df.rows := by
  have hfind : firstMissingStat (lowerCols df) = none := by
    apply List.find?_eq_none.mpr
    intro x hx
    simpa using hcols x hx
  refine ⟨?_, rfl, rfl, rfl⟩
  simp [get_historical_data, hr, ho, hne, hfind]

theorem c3_reader_nonempty_returned_witness :
    get_historical_data
      ⟨true, true,
       .ok ⟨["Close", "High", "Low", "Volume"], [.vint 0],
         [[.vint 1, .vint 2, .vint 3, .vint 4]]⟩, .raised "x"⟩ =
      ⟨.ok ⟨["close", "high", "low", "volume"], [.vint 0],
         [[.vint 1, .vint 2, .vint 3, .vint 4]]⟩, true, false, []⟩ := by
  have h := c3_reader_nonempty_returned
    ⟨true, true,
     .ok ⟨["Close", "High", "Low", "Volume"], [.vint 0],
       [[.vint 1, .vint 2, .vint 3, .vint 4]]⟩, .raised "x"⟩
    ⟨["Close", "High", "Low", "Volume"], [.vint 0],
     [[.vint 1, .vint 2, .vint 3, .vint 4]]⟩
    rfl rfl (by decide) (by decide)
  rw [h.1]
  decide

theorem tvPhase_not_uncaught (c : HistCall) (errs : List String) (r : Bool)
    (s : String) : (tvPhase c errs r).result ≠ .uncaught s := by
  rcases c with ⟨upr, utv, ro, tvo⟩
  cases utv
  · simp [tvPhase]
  · cases tvo with
    | raised m => simp [tvPhase]
    | ok p =>
      cases p with
      | noData => simp [tvPhase]
      | withData entries =>
        cases hex : extractTVRows entries with
        | error m => simp [tvPhase, hex]
        | ok rows => cases rows <;> simp [tvPhase, hex]

theorem tvPhase_errors_mono (c : HistCall) (errs : List String) (r : Bool)
    (e : String) (he : e ∈ errs) : e ∈ (tvPhase c errs r).errors := by
  rcases c with ⟨upr, utv, ro, tvo⟩
  cases utv
  · simpa [tvPhase] using he
  · cases tvo with
    | raised m => simp [tvPhase, he]
    | ok p =>
      cases p with
      | noData => simpa [tvPhase] using he
      | withData entries =>
        cases hex : extractTVRows entries with
        | error m => simp [tvPhase, hex, he]
        | ok rows => cases rows <;> simpa [tvPhase, hex] using he

theorem tvPhase_tvAttempted (c : HistCall) (errs : List String) (r : Bool) :
    (tvPhase c errs r).tvAttempted = c.useTradingView := by
  rcases c with ⟨upr, utv, ro, tvo⟩
  cases utv
  · simp [tvPhase]
  · cases tvo with
    | raised m => simp [tvPhase]
    | ok p =>
      cases p with
      | noData => simp [tvPhase]
      | withData entries =>
        cases hex : extractTVRows entries with
        | error m => simp [tvPhase, hex]
        | ok rows => cases rows <;> simp [tvPhase, hex]

theorem tvPhase_raised_mem (c : HistCall) (errs : List String) (r : Bool)
    (m : String) (hutv : c.useTradingView = true) (htv : c.tvOutcome = .raised m) :
    ("TradingView error: " ++ m) ∈ (tvPhase c errs r).errors := by
  rcases c with ⟨upr, utv, ro, tvo⟩
  cases hutv
  cases htv
  simp [tvPhase]

theorem tvPhase_composite_iff (c : HistCall) (errs : List String) (r : Bool) :
    (∃ m, (tvPhase c errs r).result = .psxRequestError m) ↔
      tvReturnsTable c = false := by
  rcases c with ⟨upr, utv, ro, tvo⟩
  cases utv
  · simp [tvPhase, tvReturnsTable]
  · cases tvo with
    | raised m => simp [tvPhase, tvReturnsTable]
    | ok p =>
      cases p with
      | noData => simp [tvPhase, tvReturnsTable]
      | withData entries =>
        cases hex : extractTVRows entries with
        | error m => simp [tvPhase, tvReturnsTable, hex]
        | ok rows => cases rows <;> simp [tvPhase, tvReturnsTable, hex]

theorem tvPhase_composite_msg (c : HistCall) (errs : List String) (r : Bool)
    (m : String) (h : (tvPhase c errs r).result = .psxRequestError m) :
    m = compositeMsg ((tvPhase c errs r).errors) := by
  rcases c with ⟨upr, utv, ro, tvo⟩
  cases utv
  · simp [tvPhase] at h ⊢
    exact h.symm
  · cases tvo with
    | raised m2 =>
      simp [tvPhase] at h ⊢
      exact h.symm
    | ok p =>
      cases p with
      | noData =>
        simp [tvPhase] at h ⊢
        exact h.symm
      | withData entries =>
        cases hex : extractTVRows entries with
        | error m2 =>
          simp [tvPhase, hex] at h ⊢
          exact h.symm
        | ok rows =>
          cases rows with
          | nil =>
            simp [tvPhase, hex] at h ⊢
            exact h.symm
          | cons a b => simp [tvPhase, hex] at h

/-- Claim C4 counterexample, in two parts.  First: the reader source is
enabled and succeeds with an empty table while TradingView holds a valid
6-cell row, yet the call returns the empty table without attempting
TradingView.  Second: with the reader disabled, a `data` entry of 7 cells
(length at least 6, which the claim calls valid) makes the positional
unpacking raise `ValueError`, so the call ends in the composite error instead
of a table. -/
theorem c4_counterexample :
    get_historical_data
      ⟨true, true, .ok ⟨[], [], []⟩,
       .ok (.withData
         [.ofList [.vstr "2024-01-01", .vint 10, .vint 12, .vint 9, .vint 11,
           .vint 100]])⟩ =
      ⟨.ok ⟨[], [], []⟩, true, false, []⟩
    ∧ get_historical_data
      ⟨false, true, .psxError "unused",
       .ok (.withData
         [.ofList [.vstr "2024-01-01", .vint 10, .vint 12, .vint 9, .vint 11,
           .vint 100, .vint 0]])⟩ =
      ⟨.psxRequestError
         (compositeMsg ["TradingView error: too many values to unpack (expected 6)"]),
       false, true,
       ["TradingView error: too many values to unpack (expected 6)"]⟩ := by
  constructor <;> decide

/-- Claim C4 (amended): when the reader source is disabled or fails with
`PSXRequestError`, and TradingView returns a mapping with a `data` key whose
entries include at least one list of exactly 6 cells and no list longer than
6 cells, the call returns the table built from exactly those 6-cell entries in
order, interpreted positionally as `(date, open, high, low, close, volume)`
and indexed by date, every non-list or too-short entry silently dropped. -/
theorem c4_tv_fallback (ctx : HistCall) (entries : List TVEntry)
    (hreach : ctx.usePsxReader = false ∨ ∃ m, ctx.readerOutcome = .psxError m)
    (htv : ctx.useTradingView = true)
    (hd : ctx.tvOutcome = .ok (.withData entries))
    (hlen : ∀ e ∈ entries, entryLenOk e = true)
    (hnz : validRows entries ≠ []) :
    (get_historical_data ctx).result = .ok (tvDataFrame (validRows entries))
      ∧ (get_historical_data ctx).tvAttempted = true := by
  have hex := extractTVRows_eq_validRows entries hlen
  obtain ⟨r, rs, hrr⟩ := List.exists_cons_of_ne_nil hnz
  rcases ctx with ⟨upr, utv, ro, tvo⟩
  simp only at htv hd
  subst htv
  subst hd
  rcases hreach with hupr | ⟨m, hro⟩
  · simp only at hupr
    subst hupr
    simp [get_historical_data, tvPhase, hex, hrr]
  · simp only at hro
    subst hro
    cases upr <;> simp [get_historical_data, tvPhase, hex, hrr]

theorem c4_tv_fallback_witness :
    (get_historical_data
      ⟨false, true, .psxError "down",
       .ok (.withData
         [.ofList [.vstr "2024-01-02", .vint 1, .vint 2, .vint 0, .vint 1,
            .vint 9],
          .scalar .vnone])⟩).result =
      .ok (tvDataFrame (validRows
        [.ofList [.vstr "2024-01-02", .vint 1, .vint 2, .vint 0, .vint 1,
           .vint 9],
         .scalar .vnone])) :=
  (c4_tv_fallback _ _ (Or.inl rfl) rfl rfl (by decide) (by decide)).1

/-- Claim C5 counterexample: with the reader enabled and TradingView disabled,
the reader succeeds with an empty table.  Every enabled source has then been
attempted and none produced data (the table is empty), yet the call returns
the empty table instead of raising the composite `PSXRequestError`. -/
theorem c5_counterexample :
    get_historical_data ⟨true, false, .ok ⟨[], [], []⟩, .raised "x"⟩ =
      ⟨.ok ⟨[], [], []⟩, true, false, []⟩
    ∧ (⟨[], [], []⟩ : DataFrame).empty = true := by
  constructor <;> decide

/-- Claim C5 (amended): the composite `PSXRequestError` is raised exactly when
the reader branch did not end the call (it was disabled or raised
`PSXRequestError` — a successful scrape ends the call even with an empty
table) and the TradingView branch returned no table; its message is the
header followed by the accumulated `(source, message)` failures, 1-indexed in
attempt order (reader first), with exactly one enumerated line per recorded
failure. -/
theorem c5_composite_iff (ctx : HistCall) :
    ((∃ m, (get_historical_data ctx).result = .psxRequestError m) ↔
      (readerEndsCall ctx = false ∧ tvReturnsTable ctx = false))
    ∧ (∀ m, (get_historical_data ctx).result = .psxRequestError m →
      m = compositeMsg ((get_historical_data ctx).errors))
    ∧ (numberedLines (get_historical_data ctx).errors).length =
      (get_historical_data ctx).errors.length := by
  refine ⟨?_, ?_, numberedLines_length _⟩
  · obtain ⟨upr, utv, ro, tvo⟩ := ctx
    cases upr
    · have h1 := tvPhase_composite_iff ⟨false, utv, ro, tvo⟩ [] false
      simpa [get_historical_data, readerEndsCall] using h1
    · cases ro with
      | ok df =>
        cases hemp : (lowerCols df).empty
        · cases hfm : firstMissingStat (lowerCols df) <;>
            simp [get_historical_data, hemp, hfm, readerEndsCall]
        · simp [get_historical_data, hemp, readerEndsCall]
      | psxError m0 =>
        have h1 := tvPhase_composite_iff ⟨true, utv, .psxError m0, tvo⟩
          ["PSXDataReader error: " ++ m0] true
        simpa [get_historical_data, readerEndsCall] using h1
      | otherError m0 =>
        simp [get_historical_data, readerEndsCall]
  · intro m hm
    obtain ⟨upr, utv, ro, tvo⟩ := ctx
    cases upr
    · exact tvPhase_composite_msg _ _ _ m (by simpa [get_historical_data] using hm)
    · cases ro with
      | ok df =>
        exfalso
        cases hemp : (lowerCols df).empty
        · cases hfm : firstMissingStat (lowerCols df) <;>
            simp [get_historical_data, hemp, hfm] at hm
        · simp [get_historical_data, hemp] at hm
      | psxError m0 =>
        exact tvPhase_composite_msg _ _ _ m (by simpa [get_historical_data] using hm)
      | otherError m0 =>
        exfalso
        simp [get_historical_data] at hm

theorem c5_composite_iff_witness :
    (readerEndsCall ⟨false, false, .psxError "x", .raised "y"⟩ = false
      ∧ tvReturnsTable ⟨false, false, .psxError "x", .raised "y"⟩ = false)
    ∧ compositeMsg [] =
      compositeMsg ((get_historical_data
        ⟨false, false, .psxError "x", .raised "y"⟩).errors) :=
  ⟨(c5_composite_iff ⟨false, false, .psxError "x", .raised "y"⟩).1.mp
      ⟨compositeMsg [], rfl⟩,
   (c5_composite_iff ⟨false, false, .psxError "x", .raised "y"⟩).2.1
      (compositeMsg []) rfl⟩

/-- Claim C6: the two fallback branches catch errors asymmetrically.  A
non-`PSXRequestError` exception from the reader branch escapes uncaught and
ends the whole call with TradingView never attempted; a `PSXRequestError`
from the reader is recorded in the accumulator and control continues to the
next enabled source; once control leaves the reader branch no exception ever
escapes (the TradingView branch catches everything); and a TradingView
exception is stringified into the accumulator. -/
theorem c6_error_catching_asymmetry (ctx : HistCall) (m m2 : String) :
    (ctx.usePsxReader = true → ctx.readerOutcome = .otherError m →
      get_historical_data ctx = ⟨.uncaught m, true, false, []⟩)
    ∧ (ctx.usePsxReader = true → ctx.readerOutcome = .psxError m →
      ("PSXDataReader error: " ++ m) ∈ (get_historical_data ctx).errors
        ∧ (get_historical_data ctx).tvAttempted = ctx.useTradingView)
    ∧ ((ctx.usePsxReader = false ∨ ctx.readerOutcome = .psxError m) →
      ∀ s, (get_historical_data ctx).result ≠ .uncaught s)
    ∧ ((ctx.usePsxReader = false ∨ ctx.readerOutcome = .psxError m) →
      ctx.useTradingView = true → ctx.tvOutcome = .raised m2 →
      ("TradingView error: " ++ m2) ∈ (get_historical_data ctx).errors) := by
  obtain ⟨upr, utv, ro, tvo⟩ := ctx
  refine ⟨?_, ?_, ?_, ?_⟩
  · intro hu hr
    simp only at hu hr
    subst hu
    subst hr
    simp [get_historical_data]
  · intro hu hr
    simp only at hu hr
    subst hu
    subst hr
    constructor
    · exact tvPhase_errors_mono _ _ _ _ (by simp [get_historical_data])
    · simpa [get_historical_data] using
        tvPhase_tvAttempted ⟨true, utv, .psxError m, tvo⟩
          ["PSXDataReader error: " ++ m] true
  · rintro (hu | hr) s
    · simp only at hu
      subst hu
      simpa [get_historical_data] using
        tvPhase_not_uncaught ⟨false, utv, ro, tvo⟩ [] false s
    · simp only at hr
      subst hr
      cases upr
      · simpa [get_historical_data] using
          tvPhase_not_uncaught ⟨false, utv, .psxError m, tvo⟩ [] false s
      · simpa [get_historical_data] using
          tvPhase_not_uncaught ⟨true, utv, .psxError m, tvo⟩
            ["PSXDataReader error: " ++ m] true s
  · rintro (hu | hr) hutv htv
    · simp only at hu hutv htv
      subst hu
      subst hutv
      subst htv
      simpa [get_historical_data] using
        tvPhase_raised_mem ⟨false, true, ro, .raised m2⟩ [] false m2 rfl rfl
    · simp only at hr hutv htv
      subst hr
      subst hutv
      subst htv
      cases upr
      · simpa [get_historical_data] using
          tvPhase_raised_mem ⟨false, true, .psxError m, .raised m2⟩ [] false
            m2 rfl rfl
      · simpa [get_historical_data] using
          tvPhase_raised_mem ⟨true, true, .psxError m, .raised m2⟩
            ["PSXDataReader error: " ++ m] true m2 rfl rfl

theorem c6_error_catching_asymmetry_witness :
    (get_historical_data ⟨true, true, .otherError "boom", .raised "tv down"⟩ =
      ⟨.uncaught "boom", true, false, []⟩)
    ∧ ("PSXDataReader error: down") ∈
      (get_historical_data ⟨true, true, .psxError "down", .raised "tv down"⟩).errors
    ∧ (get_historical_data ⟨true, true, .psxError "down", .raised "tv down"⟩).result ≠
      .uncaught "tv down"
    ∧ ("TradingView error: tv down") ∈
      (get_historical_data ⟨true, true, .psxError "down", .raised "tv down"⟩).errors :=
  ⟨(c6_error_catching_asymmetry ⟨true, true, .otherError "boom", .raised "tv down"⟩
      "boom" "tv down").1 rfl rfl,
   ((c6_error_catching_asymmetry ⟨true, true, .psxError "down", .raised "tv down"⟩
      "down" "tv down").2.1 rfl rfl).1,
   (c6_error_catching_asymmetry ⟨true, true, .psxError "down", .raised "tv down"⟩
      "down" "tv down").2.2.1 (Or.inr rfl) "tv down",
   (c6_error_catching_asymmetry ⟨true, true, .psxError "down", .raised "tv down"⟩
      "down" "tv down").2.2.2 (Or.inr rfl) rfl rfl⟩

/-- Claim C7: `get_intraday_data` returns the primary result verbatim when the
primary source succeeds; when the primary raises and the secondary succeeds,
it returns the single-row snapshot whose price and volume come from the
secondary mapping and whose index is the call-time `now` — any timestamp the
mapping carries is ignored. -/
theorem c7_intraday_fallback (p : IntradayPrimary) (s : IntradaySecondary)
    (now : Val) (df : DataFrame) (d : IntradayDict) (m : String) :
    (p = .ok df → get_intraday_data p s now = .ok df)
    ∧ (p = .raised m → s = .ok d →
      get_intraday_data p s now =
        .ok ⟨["price", "volume"], [now],
          [[d.price.getD Val.vnone, d.volume.getD Val.vnone]]⟩) := by
  constructor
  · intro hp
    subst hp
    rfl
  · intro hp hs
    subst hp
    subst hs
    rfl

theorem c7_intraday_fallback_witness :
    get_intraday_data (.raised "primary down")
      (.ok ⟨some (.vint 7), some (.vint 3), some (.vstr "2020-01-01")⟩)
      (.vdt "NOW") =
      .ok ⟨["price", "volume"], [.vdt "NOW"], [[.vint 7, .vint 3]]⟩ :=
  (c7_intraday_fallback (.raised "primary down")
    (.ok ⟨some (.vint 7), some (.vint 3), some (.vstr "2020-01-01")⟩)
    (.vdt "NOW") ⟨[], [], []⟩
    ⟨some (.vint 7), some (.vint 3), some (.vstr "2020-01-01")⟩
    "primary down").2 rfl rfl

/-- Claim C8: when the primary and the secondary intraday sources both raise,
`get_intraday_data` raises `PSXRequestError` wrapping the message of the
secondary failure, not the primary one. -/
theorem c8_intraday_both_fail (m1 m2 : String) (now : Val) :
    get_intraday_data (.raised m1) (.raised m2) now =
      .psxRequestError ("Failed to fetch intraday data: " ++ m2) := rfl

/-- Claim C9: when the TradingView branch runs and returns without raising
but its payload has no usable `data` key, or every `data` entry is malformed
(a non-list or a list shorter than 6 cells), nothing is appended to the error
accumulator for that attempt, so the composite error can enumerate fewer
entries than the number of sources attempted — one entry after reader failure
plus a silent TradingView attempt, and zero entries when both sources are
disabled. -/
theorem c9_silent_tv_nonappend (ctx : HistCall) (entries : List TVEntry)
    (m : String) :
    ((ctx.tvOutcome = .ok .noData ∨
        (ctx.tvOutcome = .ok (.withData entries) ∧
          ∀ e ∈ entries, malformedEntry e = true)) →
      ((ctx.usePsxReader = false → ctx.useTradingView = true →
        get_historical_data ctx =
          ⟨.psxRequestError (compositeMsg []), false, true, []⟩)
       ∧ (ctx.usePsxReader = true → ctx.readerOutcome = .psxError m →
          ctx.useTradingView = true →
          (get_historical_data ctx).errors = ["PSXDataReader error: " ++ m]
            ∧ (get_historical_data ctx).readerAttempted = true
            ∧ (get_historical_data ctx).tvAttempted = true
            ∧ (get_historical_data ctx).errors.length = 1)))
    ∧ (ctx.usePsxReader = false → ctx.useTradingView = false →
      get_historical_data ctx =
        ⟨.psxRequestError (compositeMsg []), false, false, []⟩) := by
  obtain ⟨upr, utv, ro, tvo⟩ := ctx
  constructor
  · intro htv
    have hexnil : tvo = .ok .noData ∨
        (tvo = .ok (.withData entries) ∧ extractTVRows entries = .ok []) := by
      rcases htv with h | ⟨h, hall⟩
      · exact Or.inl (by simpa using h)
      · refine Or.inr ⟨by simpa using h, ?_⟩
        rw [extractTVRows_eq_validRows entries
          (fun e he => malformed_entryLenOk e (hall e he))]
        rw [validRows_all_malformed entries hall]
    constructor
    · intro hu hutv
      simp only at hu hutv
      subst hu
      subst hutv
      rcases hexnil with h | ⟨h, hex⟩
      · subst h
        simp [get_historical_data, tvPhase]
      · subst h
        simp [get_historical_data, tvPhase, hex]
    · intro hu hr hutv
      simp only at hu hr hutv
      subst hu
      subst hr
      subst hutv
      rcases hexnil with h | ⟨h, hex⟩
      · subst h
        simp [get_historical_data, tvPhase]
      · subst h
        simp [get_historical_data, tvPhase, hex]
  · intro hu hutv
    simp only at hu hutv
    subst hu
    subst hutv
    simp [get_historical_data, tvPhase]

theorem c9_silent_tv_nonappend_witness :
    (get_historical_data ⟨false, true, .psxError "x", .ok .noData⟩ =
      ⟨.psxRequestError (compositeMsg []), false, true, []⟩)
    ∧ (get_historical_data
        ⟨true, true, .psxError "reader down",
         .ok (.withData [.scalar .vnone, .ofList [.vint 1, .vint 2]])⟩).errors =
      ["PSXDataReader error: reader down"]
    ∧ (get_historical_data ⟨false, false, .psxError "x", .ok .noData⟩ =
      ⟨.psxRequestError (compositeMsg []), false, false, []⟩) :=
  ⟨((c9_silent_tv_nonappend ⟨false, true, .psxError "x", .ok .noData⟩ [] "x").1
      (Or.inl rfl)).1 rfl rfl,
   (((c9_silent_tv_nonappend
        ⟨true, true, .psxError "reader down",
         .ok (.withData [.scalar .vnone, .ofList [.vint 1, .vint 2]])⟩
        [.scalar .vnone, .ofList [.vint 1, .vint 2]] "reader down").1
      (Or.inr ⟨rfl, by decide⟩)).2 rfl rfl rfl).1,
   (c9_silent_tv_nonappend ⟨false, false, .psxError "x", .ok .noData⟩ [] "x").2
      rfl rfl⟩

/-- Claim C10: when the reader source returns a non-empty table whose
lower-cased columns lack one of `close`, `high`, `low`, `volume`, the
statistics block raises `KeyError` for the first missing one; that exception
is not a `PSXRequestError`, so nothing catches it: TradingView is never
attempted and the whole call ends with the uncaught error instead of the
composite `PSXRequestError`. -/
theorem c10_missing_stats_column_aborts (ctx : HistCall) (df : DataFrame)
    (hr : ctx.usePsxReader = true) (ho : ctx.readerOutcome = .ok df)
    (hne : (lowerCols df).empty = false)
    (hmiss : ∃ s ∈ statsCols, (lowerCols df).columns.contains s = false) :
    ∃ col ∈ statsCols,
      (lowerCols df).columns.contains col = false
        ∧ get_historical_data ctx =
          ⟨.uncaught ("KeyError: " ++ col), true, false, []⟩
        ∧ ∀ m, (get_historical_data ctx).result ≠ .psxRequestError m := by
  have hsome :
      (statsCols.find? (fun c => !((lowerCols df).columns.contains c))).isSome := by
    rw [List.find?_isSome]
    obtain ⟨s, hs, hcon⟩ := hmiss
    exact ⟨s, hs, by simpa using hcon⟩
  obtain ⟨col, hcol⟩ := Option.isSome_iff_exists.mp hsome
  have hmem : col ∈ statsCols := List.mem_of_find?_eq_some hcol
  have hprop := List.find?_some hcol
  have hfm : firstMissingStat (lowerCols df) = some col := hcol
  refine ⟨col, hmem, by simpa using hprop, ?_, ?_⟩
  · obtain ⟨upr, utv, ro, tvo⟩ := ctx
    simp only at hr ho
    subst hr
    subst ho
    simp [get_historical_data, hne, hfm]
  · intro m
    obtain ⟨upr, utv, ro, tvo⟩ := ctx
    simp only at hr ho
    subst hr
    subst ho
    simp [get_historical_data, hne, hfm]

theorem c10_missing_stats_column_aborts_witness :
    ∃ col ∈ statsCols,
      (lowerCols ⟨["Close", "High"], [.vint 0], [[.vint 1, .vint 2]]⟩).columns.contains
          col = false
        ∧ get_historical_data
            ⟨true, true, .ok ⟨["Close", "High"], [.vint 0], [[.vint 1, .vint 2]]⟩,
             .ok .noData⟩ =
          ⟨.uncaught ("KeyError: " ++ col), true, false, []⟩
        ∧ ∀ m,
          (get_historical_data
            ⟨true, true, .ok ⟨["Close", "High"], [.vint 0], [[.vint 1, .vint 2]]⟩,
             .ok .noData⟩).result ≠ .psxRequestError m :=
  c10_missing_stats_column_aborts
    ⟨true, true, .ok ⟨["Close", "High"], [.vint 0], [[.vint 1, .vint 2]]⟩,
     .ok .noData⟩
    ⟨["Close", "High"], [.vint 0], [[.vint 1, .vint 2]]⟩
    rfl rfl (by decide) ⟨"low", by decide, by decide⟩

end PyPSX
